import Mathlib

/-!
Shallow embedding of `src/gameServer/src/gameplay/Player.js` (the per-player
simulation core of the splix game server).

Modelling conventions:
* JS numbers holding grid coordinates and ids are modelled as `Int`.
  Wall-clock timestamps (`performance.now()`) and the tile-progress
  accumulator are JS floats in the source; they are modelled as `Int`
  (restricting to exactly representable integer values). Every comparison the
  source makes on them is against an integer threshold (`> 1`, `> 600`,
  `> 5_000`), so none of the claims under verification depends on fractional
  values, and the restriction keeps every definition kernel-executable.
* Mutation of the `Player` object is modelled as explicit state passing over
  `PlayerState`; every outbound call to the `Game`, `Arena` or
  `WebSocketConnection` collaborators is recorded as an `Effect` in an output
  list, in program order.
* Configuration constants imported from `src/config.js` (not part of the
  sources) are passed as explicit parameters (`SKINS_COUNT`,
  `VIEWPORT_EDGE_CHUNK_SIZE`, `MIN_TILES_VIEWPORT_RECT_SIZE`,
  `PLAYER_TRAVEL_SPEED`, arena width/height).
* Object identity (`player == this`, `otherPlayer == this`) is modelled by an
  explicit boolean flag / by keeping the mover separate from the list of other
  players.
* The `throw new Error("Assertion failed ...")` paths are modelled by the
  distinguished `Effect.assertionFailed` effect terminating the operation.
-/

namespace Splix

/-- Direction of travel; wire-encoded right=0, down=1, left=2, up=3, paused=4. -/
inductive Direction where
  | right
  | down
  | left
  | up
  | paused
deriving DecidableEq, Repr

/-- 2D integer grid vector, mirroring the `Vec2` usage in `Player.js`.
`new Vec2()` defaults to `(0, 0)`. -/
structure Vec2 where
  x : Int := 0
  y : Int := 0
deriving DecidableEq, Repr

/-- Axis-aligned rectangle (`Rect` from `util.js`): `min`/`max` corners. -/
structure Rect where
  min : Vec2
  max : Vec2
deriving DecidableEq, Repr

/-- `DeathType` from `Player.js`: `"player" | "area-bounds" | "self"`. -/
inductive DeathType where
  | player
  | areaBounds
  | self
deriving DecidableEq, Repr

/-- `DeathState`: `{dieTime, type}`. -/
structure DeathState where
  dieTime : Int
  type : DeathType
deriving DecidableEq, Repr

/-- `MovementQueueItem`: `{direction, desiredPosition}`. -/
structure MovementQueueItem where
  direction : Direction
  desiredPosition : Vec2
deriving DecidableEq, Repr

/-- The `{x, y, w, h}` record built inside `#sendRequiredEdgeChunks`. -/
structure ChunkRect where
  x : Int
  y : Int
  w : Int
  h : Int
deriving DecidableEq, Repr

/-- One outbound call to a collaborator (`Game`, `Arena` or the connection),
recorded in program order. -/
inductive Effect where
  | broadcastPlayerState (playerId : Int)
  | broadcastPlayerDeath (playerId : Int) (sendPosition : Bool)
  | broadcastHitLineAnimation (victimId : Int) (moverId : Int)
  | broadcastPlayerTrail (playerId : Int)
  | sendChunk (playerId : Int) (chunk : Rect)
  | sendGameOver (playerId : Int) (deathType : DeathType)
  | connectionClose (playerId : Int)
  | arenaFillPlayerTrail (vertices : List Vec2) (playerId : Int)
  | arenaUpdateCapturedArea (playerId : Int)
  | arenaClearAllPlayerTiles (playerId : Int)
  | assertionFailed
deriving DecidableEq, Repr

/-- The mutable fields of one `Player` object. Field defaults mirror the field
initialisers in `Player.js` (`#skinId = 2`, `#currentTileType = 0`,
`#currentPosition = new Vec2(20, 20)`, `#lastEdgeChunkSendX/Y = 20`,
`#nextTileProgress = 0`, `#currentDirection = "up"`, empty trail, trail bounds
`new Vec2()`–`new Vec2()`, empty queue, no death state, not permanently dead,
tiles not cleared). -/
structure PlayerState where
  id : Int
  skinId : Int := 2
  currentTileType : Int := 0
  currentPosition : Vec2 := ⟨20, 20⟩
  lastEdgeChunkSendX : Int := 20
  lastEdgeChunkSendY : Int := 20
  nextTileProgress : Int := 0
  currentDirection : Direction := Direction.up
  trailVertices : List Vec2 := []
  trailBounds : Rect := ⟨⟨0, 0⟩, ⟨0, 0⟩⟩
  movementQueue : List MovementQueueItem := []
  lastDeathState : Option DeathState := none
  permanentlyDead : Bool := false
  permanentlyDieTime : Int := 0
  allMyTilesCleared : Bool := false
deriving DecidableEq, Repr

/-- `get isGeneratingTrail() { return this.#trailVertices.length > 0; }` -/
def isGeneratingTrail (p : PlayerState) : Bool :=
  p.trailVertices.length > 0

/-- `get dead() { return Boolean(this.#lastDeathState); }` -/
def dead (p : PlayerState) : Bool :=
  p.lastDeathState.isSome

/-- `skinIdForPlayer(otherPlayer)`. `SKINS_COUNT` comes from `config.js` and is
passed explicitly; `otherIsSelf` models the reference equality
`otherPlayer == this`. -/
def skinIdForPlayer (SKINS_COUNT : Int) (p : PlayerState) (otherSkinId : Int)
    (otherIsSelf : Bool) : Int :=
  if p.skinId ≠ otherSkinId ∨ otherIsSelf then
    p.skinId
  else
    let fakeSkinId := p.id % (SKINS_COUNT - 1)
    if fakeSkinId ≥ otherSkinId - 1 then fakeSkinId + 1 else fakeSkinId

/-- `#checkNextMoveValidity(desiredPosition, newDirection)`, with the guards in
source order. -/
def checkNextMoveValidity (p : PlayerState) (desiredPosition : Vec2)
    (newDirection : Direction) : Bool :=
  if (p.currentDirection = Direction.right ∨ p.currentDirection = Direction.left) ∧
      (newDirection = Direction.right ∨ newDirection = Direction.left) then
    false
  else if (p.currentDirection = Direction.up ∨ p.currentDirection = Direction.down) ∧
      (newDirection = Direction.up ∨ newDirection = Direction.down) then
    false
  else if p.currentDirection = newDirection then
    false
  else if newDirection = Direction.paused then
    true
  else if (p.currentDirection = Direction.left ∨ p.currentDirection = Direction.right) ∧
      desiredPosition.y ≠ p.currentPosition.y then
    false
  else if (p.currentDirection = Direction.up ∨ p.currentDirection = Direction.down) ∧
      desiredPosition.x ≠ p.currentPosition.x then
    false
  else
    true

/-- Modelled from the spec: `checkTrailSegment(point, start, end)` lives in
`src/util/util.js`, which is not among the sources. Per §2 ("pure functions
testing whether a point lies on a line segment") and §4.3 ("exact segment
containment"), it tests whether `point` lies on the axis-aligned segment from
`start` to `stop`, endpoints included. -/
def checkTrailSegment (point start stop : Vec2) : Bool :=
  (start.x = point.x ∧ stop.x = point.x ∧
    min start.y stop.y ≤ point.y ∧ point.y ≤ max start.y stop.y) ∨
  (start.y = point.y ∧ stop.y = point.y ∧
    min start.x stop.x ≤ point.x ∧ point.x ≤ max start.x stop.x)

/-- The `for (let i = 0; i < this.#trailVertices.length - 1; i++)` loop in
`pointIsInTrail`: tests `point` against every pair of consecutive vertices. -/
def pointOnAnySegment (point : Vec2) : List Vec2 → Bool
  | a :: b :: rest => checkTrailSegment point a b || pointOnAnySegment point (b :: rest)
  | _ => false

/-- `pointIsInTrail(point, { includeLastSegment })`. When generating, checks
all committed segments, then (if `includeLastSegment`) the implicit segment
from the last vertex to the live position; when not generating it is a point
test against the live position, gated on `includeLastSegment`. -/
def pointIsInTrail (p : PlayerState) (point : Vec2) (includeLastSegment : Bool) : Bool :=
  if isGeneratingTrail p then
    pointOnAnySegment point p.trailVertices ||
      (includeLastSegment &&
        match p.trailVertices.getLast? with
        | some last => checkTrailSegment point last p.currentPosition
        | none => false)
  else
    includeLastSegment && point = p.currentPosition

/-- `pointIsInTrailBounds(point)`. -/
def pointIsInTrailBounds (p : PlayerState) (point : Vec2) : Bool :=
  point.x ≥ p.trailBounds.min.x ∧ point.y ≥ p.trailBounds.min.y ∧
    point.x ≤ p.trailBounds.max.x ∧ point.y ≤ p.trailBounds.max.y

/-- `die(deathType, sendPosition)`: idempotent latch recording
`{dieTime := now, type}` and broadcasting the death once. -/
def die (p : PlayerState) (deathType : DeathType) (sendPosition : Bool)
    (now : Int) : PlayerState × List Effect :=
  match p.lastDeathState with
  | some _ => (p, [])
  | none =>
    ({ p with lastDeathState := some ⟨now, deathType⟩ },
      [Effect.broadcastPlayerDeath p.id sendPosition])

/-- `#clearAllMyTiles()`: one-way latch around `arena.clearAllPlayerTiles`. -/
def clearAllMyTiles (p : PlayerState) : PlayerState × List Effect :=
  if p.allMyTilesCleared then
    (p, [])
  else
    ({ p with allMyTilesCleared := true }, [Effect.arenaClearAllPlayerTiles p.id])

/-- `#permanentlyDie()`: one-way latch; records `permanentlyDieTime := now`,
clears tiles, asserts a death state exists, and sends the game-over message.
The `throw` on a missing death state is modelled by `Effect.assertionFailed`. -/
def permanentlyDie (p : PlayerState) (now : Int) : PlayerState × List Effect :=
  if p.permanentlyDead then
    (p, [])
  else
    let p1 : PlayerState := { p with permanentlyDead := true, permanentlyDieTime := now }
    let r := clearAllMyTiles p1
    match r.1.lastDeathState with
    | none => (r.1, r.2 ++ [Effect.assertionFailed])
    | some ds => (r.1, r.2 ++ [Effect.sendGameOver r.1.id ds.type])

/-- The two death-timer checks at the end of `loop(now, dt)`: permanent death
once more than 600 ms have elapsed since `dieTime`, connection close once more
than 5000 ms have elapsed since `permanentlyDieTime`. Both `performance.now()`
reads within one call are modelled as the same `now`. -/
def loopDeathChecks (p : PlayerState) (now : Int) : PlayerState × List Effect :=
  let r :=
    match p.lastDeathState with
    | some ds => if now - ds.dieTime > 600 then permanentlyDie p now else (p, [])
    | none => (p, [])
  let closeEffs :=
    if r.1.permanentlyDead ∧ now - r.1.permanentlyDieTime > 5000 then
      [Effect.connectionClose r.1.id]
    else
      []
  (r.1, r.2 ++ closeEffs)

/-- The accepted-item update inside `#drainMovementQueue`: snap the position,
append a trail vertex when generating, update the direction. -/
def applyAcceptedMove (p : PlayerState) (item : MovementQueueItem) : PlayerState :=
  { p with
    currentPosition := item.desiredPosition,
    trailVertices :=
      if isGeneratingTrail p then p.trailVertices ++ [item.desiredPosition]
      else p.trailVertices,
    currentDirection := item.direction }

/-- The `while (true)` loop of `#drainMovementQueue`, structurally recursive on
the queue: every iteration shifts the head, whether it is rejected or
accepted. -/
def drainAux (p : PlayerState) : List MovementQueueItem → PlayerState × List Effect
  | [] => (p, [])
  | item :: rest =>
    if checkNextMoveValidity p item.desiredPosition item.direction then
      let p1 := applyAcceptedMove p item
      let r := drainAux p1 rest
      (r.1, Effect.broadcastPlayerState p1.id :: r.2)
    else
      drainAux p rest

/-- `#drainMovementQueue()`. -/
def drainMovementQueue (p : PlayerState) : PlayerState × List Effect :=
  drainAux { p with movementQueue := [] } p.movementQueue

/-- `clientPosUpdateRequested(direction, desiredPosition)`: push the intent and
drain. -/
def clientPosUpdateRequested (p : PlayerState) (direction : Direction)
    (desiredPosition : Vec2) : PlayerState × List Effect :=
  drainMovementQueue
    { p with movementQueue := p.movementQueue ++ [⟨direction, desiredPosition⟩] }

/-- Arena-related configuration: `arena.width`/`arena.height` and the viewport
constants from `config.js`, all external to `Player.js`. -/
structure Config where
  arenaWidth : Int
  arenaHeight : Int
  /-- `VIEWPORT_EDGE_CHUNK_SIZE` -/
  chunkSize : Int
  /-- `MIN_TILES_VIEWPORT_RECT_SIZE` -/
  viewportSize : Int
deriving DecidableEq, Repr

/-- The trail-bounds maintenance at the top of `#currentPositionChanged`:
when generating, grow the box to include the new position (`Math.min`/`Math.max`
per component); when not generating, reset it to the single-point box at the
new position. -/
def updateTrailBoundsOnMove (p : PlayerState) : PlayerState :=
  if isGeneratingTrail p then
    { p with trailBounds :=
      ⟨⟨min p.trailBounds.min.x p.currentPosition.x,
        min p.trailBounds.min.y p.currentPosition.y⟩,
       ⟨max p.trailBounds.max.x p.currentPosition.x,
        max p.trailBounds.max.y p.currentPosition.y⟩⟩ }
  else
    { p with trailBounds := ⟨p.currentPosition, p.currentPosition⟩ }

/-- The boundary condition in `#currentPositionChanged`:
`x <= 0 || y <= 0 || x >= arena.width - 1 || y >= arena.height - 1`. -/
def outOfBounds (cfg : Config) (pos : Vec2) : Bool :=
  pos.x ≤ 0 ∨ pos.y ≤ 0 ∨ pos.x ≥ cfg.arenaWidth - 1 ∨ pos.y ≥ cfg.arenaHeight - 1

/-- One iteration of the trail-collision loop of `#currentPositionChanged` for
a player other than the mover (`includeLastSegment = true`): if the mover's new
position is inside `q`'s trail bounds and trail, `q` dies with type `"player"`
without position reveal, and one hit-line animation `(q, mover)` is broadcast. -/
def processOtherHit (pos : Vec2) (moverId : Int) (q : PlayerState)
    (now : Int) : PlayerState × List Effect :=
  if pointIsInTrailBounds q pos ∧ pointIsInTrail q pos true then
    let r := die q DeathType.player false now
    (r.1, r.2 ++ [Effect.broadcastHitLineAnimation q.id moverId])
  else
    (q, [])

/-- The `+X` branch chunk of `#sendRequiredEdgeChunks` (as `{x, y, w, h}`). -/
def plusXChunk (cs vs : Int) (pos : Vec2) (lastY : Int) : ChunkRect :=
  ⟨pos.x + vs, lastY - vs - cs, cs, (vs + cs) * 2⟩

/-- The `-X` branch chunk of `#sendRequiredEdgeChunks`. -/
def minusXChunk (cs vs : Int) (pos : Vec2) (lastY : Int) : ChunkRect :=
  ⟨pos.x - vs - cs, lastY - vs - cs, cs, (vs + cs) * 2⟩

/-- The `+Y` branch chunk of `#sendRequiredEdgeChunks`; `lastX` is the value of
`#lastEdgeChunkSendX` at that point (it may have just been updated by one of
the X branches). -/
def plusYChunk (cs vs : Int) (pos : Vec2) (lastX : Int) : ChunkRect :=
  ⟨lastX - vs - cs, pos.y + vs, (vs + cs) * 2, cs⟩

/-- The `-Y` branch chunk of `#sendRequiredEdgeChunks`. -/
def minusYChunk (cs vs : Int) (pos : Vec2) (lastX : Int) : ChunkRect :=
  ⟨lastX - vs - cs, pos.y - vs - cs, (vs + cs) * 2, cs⟩

/-- The final `sendChunk` conversion: `{min: (x, y), max: (x + w, y + h)}`. -/
def chunkToRect (c : ChunkRect) : Rect :=
  ⟨⟨c.x, c.y⟩, ⟨c.x + c.w, c.y + c.h⟩⟩

/-- `#sendRequiredEdgeChunks()`: the four threshold branches in source order,
each overwriting the single `chunk` local and updating its axis's last-sent
coordinate; at most the final value of `chunk` is sent. -/
def sendRequiredEdgeChunks (cs vs : Int) (p : PlayerState) : PlayerState × List Effect :=
  let pos := p.currentPosition
  let c0 : Option ChunkRect := none
  let s1 : Int × Option ChunkRect :=
    if pos.x ≥ p.lastEdgeChunkSendX + cs then
      (pos.x, some (plusXChunk cs vs pos p.lastEdgeChunkSendY))
    else
      (p.lastEdgeChunkSendX, c0)
  let s2 : Int × Option ChunkRect :=
    if pos.x ≤ s1.1 - cs then
      (pos.x, some (minusXChunk cs vs pos p.lastEdgeChunkSendY))
    else
      s1
  let s3 : Int × Option ChunkRect :=
    if pos.y ≥ p.lastEdgeChunkSendY + cs then
      (pos.y, some (plusYChunk cs vs pos s2.1))
    else
      (p.lastEdgeChunkSendY, s2.2)
  let s4 : Int × Option ChunkRect :=
    if pos.y ≤ s3.1 - cs then
      (pos.y, some (minusYChunk cs vs pos s2.1))
    else
      s3
  ({ p with lastEdgeChunkSendX := s2.1, lastEdgeChunkSendY := s4.1 },
    match s4.2 with
    | some c => [Effect.sendChunk p.id (chunkToRect c)]
    | none => [])

/-- The boundary check of `#currentPositionChanged`: when the (already
updated) position touches the arena edge margin, initiate an
`"area-bounds"` death with the position revealed. -/
def boundsDeathStage (cfg : Config) (p0 : PlayerState) (now : Int) :
    PlayerState × List Effect :=
  if outOfBounds cfg p0.currentPosition then
    die p0 DeathType.areaBounds true now
  else
    (p0, [])

/-- The iteration of the trail-collision loop of `#currentPositionChanged` in
which `player == this`: the mover checks its own trail with
`includeLastSegment = false` and dies with type `"self"`, position revealed,
followed by a hit-line animation of the mover against itself. -/
def selfHitStage (p1 : PlayerState) (now : Int) : PlayerState × List Effect :=
  if pointIsInTrailBounds p1 p1.currentPosition ∧
      pointIsInTrail p1 p1.currentPosition false then
    let r := die p1 DeathType.self true now
    (r.1, r.2 ++ [Effect.broadcastHitLineAnimation p1.id p1.id])
  else
    (p1, [])

/-- `#currentPositionChanged()`: trail-bounds maintenance, boundary-death
check, trail-collision loop, then edge-chunk streaming. `others` is the list
of players other than the mover returned by the game's trail-bounds overlap
query; that query (`getOverlappingTrailBoundsPlayers`, in the external
`Game.js`) is modelled per §6 as the trail-bounds containment filter, applied
here to the mover itself (inside `selfHitStage`) and to each element of
`others` (inside `processOtherHit`). -/
def currentPositionChanged (cfg : Config) (p : PlayerState)
    (others : List PlayerState) (now : Int) :
    PlayerState × List PlayerState × List Effect :=
  let rBounds := boundsDeathStage cfg (updateTrailBoundsOnMove p) now
  let rSelf := selfHitStage rBounds.1 now
  let processed :=
    others.map (fun q => processOtherHit rSelf.1.currentPosition rSelf.1.id q now)
  let rChunks := sendRequiredEdgeChunks cfg.chunkSize cfg.viewportSize rSelf.1
  (rChunks.1, processed.map Prod.fst,
    rBounds.2 ++ rSelf.2 ++ (processed.map Prod.snd).flatten ++ rChunks.2)

/-- `#updateCurrentTile()`: on a tile-type change, start a trail when leaving
owned territory, or close and fill the trail when re-entering it (asserting
the player's tiles have not been cleared), caching the observed tile value. -/
def updateCurrentTile (arena : Vec2 → Int) (p : PlayerState) : PlayerState × List Effect :=
  let tileValue := arena p.currentPosition
  if p.currentTileType = tileValue then
    (p, [])
  else
    let startTrail : Bool := tileValue ≠ p.id ∧ ¬ isGeneratingTrail p
    let p1 :=
      if startTrail then { p with trailVertices := p.trailVertices ++ [p.currentPosition] }
      else p
    let e1 : List Effect := if startTrail then [Effect.broadcastPlayerTrail p.id] else []
    if tileValue = p.id ∧ isGeneratingTrail p1 then
      let closedVertices := p1.trailVertices ++ [p1.currentPosition]
      if p1.allMyTilesCleared then
        ({ p1 with trailVertices := closedVertices }, e1 ++ [Effect.assertionFailed])
      else
        ({ p1 with trailVertices := [], currentTileType := tileValue },
          e1 ++ [Effect.arenaFillPlayerTrail closedVertices p1.id,
                 Effect.arenaUpdateCapturedArea p1.id,
                 Effect.broadcastPlayerTrail p1.id])
    else
      ({ p1 with currentTileType := tileValue }, e1)

/-- One grid-unit move along the current direction (the body of the
`while (this.#nextTileProgress > 1)` loop before the post-move hooks). -/
def stepPosition (d : Direction) (v : Vec2) : Vec2 :=
  match d with
  | Direction.left => ⟨v.x - 1, v.y⟩
  | Direction.right => ⟨v.x + 1, v.y⟩
  | Direction.up => ⟨v.x, v.y - 1⟩
  | Direction.down => ⟨v.x, v.y + 1⟩
  | Direction.paused => v

/-- The `while (this.#nextTileProgress > 1)` loop of `loop(now, dt)`,
fuel-indexed to stay structurally recursive: each iteration requires
`nextTileProgress > 1` and decreases it by exactly 1, so any fuel of at least
`⌈nextTileProgress⌉` iterations makes the guard, not the fuel, terminate the
loop (`loop` below passes `nextTileProgress.toNat`, an upper bound on the
iteration count). -/
def moveLoopAux (cfg : Config) (arena : Vec2 → Int) (now : Int) :
    Nat → PlayerState → List PlayerState →
    PlayerState × List PlayerState × List Effect
  | 0, p, others => (p, others, [])
  | fuel + 1, p, others =>
    if p.nextTileProgress > 1 then
      let p1 := { p with
        nextTileProgress := p.nextTileProgress - 1,
        currentPosition := stepPosition p.currentDirection p.currentPosition }
      let r1 := currentPositionChanged cfg p1 others now
      let r2 := updateCurrentTile arena r1.1
      let r3 := moveLoopAux cfg arena now fuel r2.1 r1.2.1
      (r3.1, r3.2.1, r1.2.2 ++ r2.2 ++ r3.2.2)
    else
      (p, others, [])

/-- `loop(now, dt)`: if not paused and not dead, accumulate
`dt * PLAYER_TRAVEL_SPEED` into `nextTileProgress` and run the per-tile move
loop; then run the death-timer checks. `speed` is `PLAYER_TRAVEL_SPEED` from
`config.js`. -/
def loop (cfg : Config) (arena : Vec2 → Int) (speed : Int) (p : PlayerState)
    (others : List PlayerState) (now dt : Int) :
    PlayerState × List PlayerState × List Effect :=
  let rMove :=
    if p.currentDirection ≠ Direction.paused ∧ ¬ dead p then
      let progress := p.nextTileProgress + dt * speed
      moveLoopAux cfg arena now progress.toNat
        { p with nextTileProgress := progress } others
    else
      (p, others, [])
  let rDeath := loopDeathChecks rMove.1 now
  (rDeath.1, rMove.2.1, rMove.2.2 ++ rDeath.2)

/-- Containment of a point in a rectangle (both corners inclusive), used to
state trail-bounds properties. -/
def rectContainsPoint (r : Rect) (v : Vec2) : Bool :=
  r.min.x ≤ v.x ∧ r.min.y ≤ v.y ∧ v.x ≤ r.max.x ∧ v.y ≤ r.max.y

/-- Containment of a rectangle in a rectangle, used to state that the trail
bounds only ever grow while a trail is being generated. -/
def rectContainsRect (outer inner : Rect) : Bool :=
  outer.min.x ≤ inner.min.x ∧ outer.min.y ≤ inner.min.y ∧
    inner.max.x ≤ outer.max.x ∧ inner.max.y ≤ outer.max.y

/-- Recogniser for a death broadcast concerning a given player id, used to
count how often a player's death is announced. -/
def isDeathBroadcastFor (pid : Int) : Effect → Bool
  | Effect.broadcastPlayerDeath i _ => i = pid
  | _ => false

/-! ### General lemmas about the embedding -/

theorem drainAux_movementQueue (q : List MovementQueueItem) (p : PlayerState) :
    (drainAux p q).1.movementQueue = p.movementQueue := by
  induction q generalizing p with
  | nil => rfl
  | cons item rest ih =>
    simp only [drainAux]
    split
    · simpa [applyAcceptedMove] using ih (applyAcceptedMove p item)
    · exact ih p

theorem updateTrailBoundsOnMove_lastDeathState (p : PlayerState) :
    (updateTrailBoundsOnMove p).lastDeathState = p.lastDeathState := by
  unfold updateTrailBoundsOnMove
  split <;> rfl

theorem updateTrailBoundsOnMove_currentPosition (p : PlayerState) :
    (updateTrailBoundsOnMove p).currentPosition = p.currentPosition := by
  unfold updateTrailBoundsOnMove
  split <;> rfl

theorem updateTrailBoundsOnMove_id (p : PlayerState) :
    (updateTrailBoundsOnMove p).id = p.id := by
  unfold updateTrailBoundsOnMove
  split <;> rfl

theorem sendRequiredEdgeChunks_lastDeathState (cs vs : Int) (p : PlayerState) :
    (sendRequiredEdgeChunks cs vs p).1.lastDeathState = p.lastDeathState := by
  unfold sendRequiredEdgeChunks
  rfl

/-- After the trail-bounds maintenance step, the bounds always contain the
player's current position (so the mover always passes its own trail-bounds
filter). -/
theorem updateTrailBoundsOnMove_contains_position (p : PlayerState) :
    pointIsInTrailBounds (updateTrailBoundsOnMove p) p.currentPosition = true := by
  unfold updateTrailBoundsOnMove pointIsInTrailBounds
  split <;> simp

/-! ### Claim C10 -/

/-- C10: every call to `clientPosUpdateRequested` terminates (the drain loop is
structurally recursive on the queue, shifting exactly one item per iteration,
accepted or rejected) and returns with the movement queue empty. -/
theorem clientPosUpdateRequested_empties_queue (p : PlayerState) (d : Direction)
    (dp : Vec2) :
    ((clientPosUpdateRequested p d dp).1).movementQueue = [] := by
  unfold clientPosUpdateRequested drainMovementQueue
  rw [drainAux_movementQueue]

/-! ### Claim C1 -/

/-- The concrete player exhibiting the skin-collision slip: `id = 1` and the
default `skinId = 2`. -/
def c1Player : PlayerState := { id := 1 }

/-- C1: the claim fails on the code. With `SKINS_COUNT = 10`, a player with
`id = 1` and `skinId = 2` compared against a distinct player that also has
`skinId = 2` gets `fakeSkinId = 1 % 9 = 1`; since `1 ≥ 2 - 1` the shift fires
and the function returns `2`, exactly the other player's skin id, although
both the claim and the comment in the source (`exclude otherPlayer.skinId`)
promise this never happens. -/
theorem skinIdForPlayer_returns_other_skin :
    skinIdForPlayer 10 c1Player 2 false = 2 := by decide

/-! ### Claim C2 -/

/-- A player moving right at `(5, 5)`, used to exhibit the swapped-axes slip in
the claim. -/
def c2Player : PlayerState :=
  { id := 1, currentPosition := ⟨5, 5⟩, currentDirection := Direction.right }

/-- C2 counterexample: the claim says a horizontal-to-vertical turn is accepted
only if `desiredPosition.x = currentPosition.x`, but the code accepts a turn to
`up` at `(9, 5)` while moving right at `(5, 5)` even though `9 ≠ 5` (the code
checks the `y` coordinate for a horizontal current direction, not `x`). -/
theorem checkNextMoveValidity_accepts_mismatched_x :
    checkNextMoveValidity c2Player ⟨9, 5⟩ Direction.up = true ∧ (9 : Int) ≠ 5 := by
  decide

/-- C2 as amended: a perpendicular intent is accepted exactly when the desired
position is aligned with the axis the player is currently moving along — a
horizontal current direction requires `desiredPosition.y = currentPosition.y`,
a vertical current direction requires `desiredPosition.x = currentPosition.x` —
and intents on the same axis as the current direction (including the identical
direction) are always rejected. -/
theorem checkNextMoveValidity_axis_alignment (p : PlayerState) (dp : Vec2)
    (nd : Direction) :
    (((p.currentDirection = Direction.right ∨ p.currentDirection = Direction.left) ∧
        (nd = Direction.up ∨ nd = Direction.down)) →
      (checkNextMoveValidity p dp nd = true ↔ dp.y = p.currentPosition.y)) ∧
    (((p.currentDirection = Direction.up ∨ p.currentDirection = Direction.down) ∧
        (nd = Direction.right ∨ nd = Direction.left)) →
      (checkNextMoveValidity p dp nd = true ↔ dp.x = p.currentPosition.x)) ∧
    (((p.currentDirection = Direction.right ∨ p.currentDirection = Direction.left) ∧
        (nd = Direction.right ∨ nd = Direction.left)) →
      checkNextMoveValidity p dp nd = false) ∧
    (((p.currentDirection = Direction.up ∨ p.currentDirection = Direction.down) ∧
        (nd = Direction.up ∨ nd = Direction.down)) →
      checkNextMoveValidity p dp nd = false) := by
  refine ⟨?_, ?_, ?_, ?_⟩
  · rintro ⟨h1 | h1, h2 | h2⟩ <;> by_cases hy : dp.y = p.currentPosition.y <;>
      simp [checkNextMoveValidity, h1, h2, hy]
  · rintro ⟨h1 | h1, h2 | h2⟩ <;> by_cases hx : dp.x = p.currentPosition.x <;>
      simp [checkNextMoveValidity, h1, h2, hx]
  · rintro ⟨h1 | h1, h2 | h2⟩ <;> simp [checkNextMoveValidity, h1, h2]
  · rintro ⟨h1 | h1, h2 | h2⟩ <;> simp [checkNextMoveValidity, h1, h2]

/-- Witness for the amended C2 at concrete inputs: while moving right at
`(5, 5)`, a turn to `up` at `(9, 5)` (same `y`) is accepted, and a same-axis
request to `left` is rejected. -/
theorem checkNextMoveValidity_axis_alignment_witness :
    checkNextMoveValidity c2Player ⟨9, 5⟩ Direction.up = true ∧
    checkNextMoveValidity c2Player ⟨9, 5⟩ Direction.left = false :=
  ⟨((checkNextMoveValidity_axis_alignment c2Player ⟨9, 5⟩ Direction.up).1
      (by decide)).mpr rfl,
   (checkNextMoveValidity_axis_alignment c2Player ⟨9, 5⟩ Direction.left).2.2.1
      (by decide)⟩

/-! ### Claim C9 -/

/-- C9: re-entrant death transitions are safe no-ops: `die` on an
already-marked-dead player leaves the state (including `dieTime` and death
type) unchanged and performs no broadcast; clearing tiles a second time and
permanently dying a second time each leave the state unchanged and make no
arena or connection calls. -/
theorem death_reentry_noop (p : PlayerState) (t : DeathType) (b : Bool)
    (now : Int) :
    (dead p = true → die p t b now = (p, [])) ∧
    (p.allMyTilesCleared = true → clearAllMyTiles p = (p, [])) ∧
    (p.permanentlyDead = true → permanentlyDie p now = (p, [])) := by
  refine ⟨?_, ?_, ?_⟩ <;> intro h
  · unfold die
    cases hd : p.lastDeathState with
    | some ds => rfl
    | none => simp [dead, hd] at h
  · simp [clearAllMyTiles, h]
  · simp [permanentlyDie, h]

/-- A player that is marked dead, permanently dead, and has had its tiles
cleared, used to witness the no-op re-entry paths. -/
def c9Player : PlayerState :=
  { id := 3, lastDeathState := some ⟨0, DeathType.self⟩,
    permanentlyDead := true, permanentlyDieTime := 50,
    allMyTilesCleared := true }

/-- Witness for C9 at a concrete dead player. -/
theorem death_reentry_noop_witness :
    die c9Player DeathType.player false 100 = (c9Player, []) ∧
    clearAllMyTiles c9Player = (c9Player, []) ∧
    permanentlyDie c9Player 100 = (c9Player, []) :=
  ⟨(death_reentry_noop c9Player DeathType.player false 100).1 (by decide),
   (death_reentry_noop c9Player DeathType.player false 100).2.1 (by decide),
   (death_reentry_noop c9Player DeathType.player false 100).2.2 (by decide)⟩

theorem die_alive (p : PlayerState) (t : DeathType) (b : Bool) (now : Int)
    (h : p.lastDeathState = none) :
    die p t b now =
      ({ p with lastDeathState := some ⟨now, t⟩ },
       [Effect.broadcastPlayerDeath p.id b]) := by
  unfold die
  rw [h]

theorem die_dead (p : PlayerState) (t : DeathType) (b : Bool) (now : Int)
    (ds : DeathState) (h : p.lastDeathState = some ds) :
    die p t b now = (p, []) := by
  unfold die
  rw [h]

/-- Every effect emitted by `processOtherHit` concerns the victim `q` (its
death broadcast) or is a hit-line animation, so it is never a death broadcast
for a player with a different id. -/
theorem processOtherHit_filter_death_nil (pos : Vec2) (mid : Int)
    (q : PlayerState) (now : Int) (pid : Int) (hq : q.id ≠ pid) :
    ((processOtherHit pos mid q now).2.filter (isDeathBroadcastFor pid)) = [] := by
  unfold processOtherHit die
  split
  · cases hd : q.lastDeathState <;>
      simp [hd, List.filter, isDeathBroadcastFor, hq]
  · rfl

/-- The collision loop over the other players emits no death broadcast for a
player id that none of them carries. -/
theorem otherHits_filter_death_nil (pos : Vec2) (mid : Int) (now : Int)
    (pid : Int) (others : List PlayerState) (hids : ∀ q ∈ others, q.id ≠ pid) :
    (((others.map (fun q => processOtherHit pos mid q now)).map
        Prod.snd).flatten.filter (isDeathBroadcastFor pid)) = [] := by
  induction others with
  | nil => rfl
  | cons q rest ih =>
    simp only [List.map_cons, List.flatten_cons, List.filter_append]
    rw [processOtherHit_filter_death_nil pos mid q now pid
        (hids q (List.mem_cons_self q rest)),
      ih (fun r hr => hids r (List.mem_cons_of_mem q hr))]
    rfl

theorem boundsDeathStage_out (cfg : Config) (p0 : PlayerState) (now : Int)
    (hout : outOfBounds cfg p0.currentPosition = true)
    (halive : p0.lastDeathState = none) :
    boundsDeathStage cfg p0 now =
      ({ p0 with lastDeathState := some ⟨now, DeathType.areaBounds⟩ },
       [Effect.broadcastPlayerDeath p0.id true]) := by
  unfold boundsDeathStage
  rw [die_alive p0 _ _ _ halive]
  simp [hout]

theorem boundsDeathStage_in (cfg : Config) (p0 : PlayerState) (now : Int)
    (hin : outOfBounds cfg p0.currentPosition = false) :
    boundsDeathStage cfg p0 now = (p0, []) := by
  unfold boundsDeathStage
  simp [hin]

theorem selfHitStage_dead_fst (p1 : PlayerState) (now : Int) (ds : DeathState)
    (h : p1.lastDeathState = some ds) :
    (selfHitStage p1 now).1 = p1 := by
  unfold selfHitStage
  rw [die_dead p1 _ _ _ _ h]
  split <;> rfl

theorem selfHitStage_dead_filter (p1 : PlayerState) (now : Int) (ds : DeathState)
    (pid : Int) (h : p1.lastDeathState = some ds) :
    ((selfHitStage p1 now).2.filter (isDeathBroadcastFor pid)) = [] := by
  unfold selfHitStage
  rw [die_dead p1 _ _ _ _ h]
  split <;> rfl

theorem sendRequiredEdgeChunks_filter_death_nil (cs vs : Int) (p : PlayerState)
    (pid : Int) :
    ((sendRequiredEdgeChunks cs vs p).2.filter (isDeathBroadcastFor pid)) = [] := by
  unfold sendRequiredEdgeChunks
  simp only []
  split <;> rfl

/-! ### Claim C5 -/

/-- C5: a discrete move whose new position touches or exceeds an arena edge
(inclusive of the 1-tile margin) initiates the alive mover's death exactly
once, with type `"area-bounds"` and the position revealed: the resulting death
state carries type `areaBounds`, and among all effects of the position change
exactly one death broadcast for the mover is emitted, with
`sendPosition = true`. (The other players' ids being distinct from the
mover's makes "for the mover" unambiguous.) -/
theorem area_bounds_death (cfg : Config) (p : PlayerState)
    (others : List PlayerState) (now : Int)
    (halive : p.lastDeathState = none)
    (hout : outOfBounds cfg p.currentPosition = true)
    (hids : ∀ q ∈ others, q.id ≠ p.id) :
    (currentPositionChanged cfg p others now).1.lastDeathState =
      some ⟨now, DeathType.areaBounds⟩ ∧
    ((currentPositionChanged cfg p others now).2.2.filter
        (isDeathBroadcastFor p.id)) =
      [Effect.broadcastPlayerDeath p.id true] := by
  have h0 : (updateTrailBoundsOnMove p).lastDeathState = none :=
    (updateTrailBoundsOnMove_lastDeathState p).trans halive
  have hout0 : outOfBounds cfg (updateTrailBoundsOnMove p).currentPosition = true := by
    rw [updateTrailBoundsOnMove_currentPosition]
    exact hout
  unfold currentPositionChanged
  rw [boundsDeathStage_out cfg _ now hout0 h0]
  set pDead : PlayerState :=
    { updateTrailBoundsOnMove p with
        lastDeathState := some ⟨now, DeathType.areaBounds⟩ } with hpD
  have hpDd : pDead.lastDeathState = some ⟨now, DeathType.areaBounds⟩ := rfl
  have hidD : pDead.id = p.id := updateTrailBoundsOnMove_id p
  simp only []
  rw [selfHitStage_dead_fst pDead now _ hpDd]
  constructor
  · rw [sendRequiredEdgeChunks_lastDeathState]
  · simp only [List.filter_append]
    rw [selfHitStage_dead_filter pDead now _ p.id hpDd,
      otherHits_filter_death_nil pDead.currentPosition pDead.id now p.id others hids,
      sendRequiredEdgeChunks_filter_death_nil, hidD]
    simp [List.filter, isDeathBroadcastFor]

/-- An alive player standing at `(9, 5)`, one tile from the right edge of a
10-by-10 arena. -/
def c5Player : PlayerState := { id := 2, currentPosition := ⟨9, 5⟩ }

/-- Witness for C5: in a 10-by-10 arena, the move leaving the player at
`(9, 5) = (width - 1, 5)` yields an `area-bounds` death state and exactly one
death broadcast for the mover, with the position revealed. -/
theorem area_bounds_death_witness :
    (currentPositionChanged ⟨10, 10, 16, 30⟩ c5Player [] 0).1.lastDeathState =
      some ⟨0, DeathType.areaBounds⟩ ∧
    ((currentPositionChanged ⟨10, 10, 16, 30⟩ c5Player [] 0).2.2.filter
        (isDeathBroadcastFor 2)) =
      [Effect.broadcastPlayerDeath 2 true] :=
  area_bounds_death ⟨10, 10, 16, 30⟩ c5Player [] 0 rfl (by decide) (by simp)

/-! ### Claim C8 -/

/-- The `+X` threshold of `#sendRequiredEdgeChunks`. -/
def crossedPlusX (cs : Int) (p : PlayerState) : Prop :=
  p.currentPosition.x ≥ p.lastEdgeChunkSendX + cs

/-- The `-X` threshold of `#sendRequiredEdgeChunks`. -/
def crossedMinusX (cs : Int) (p : PlayerState) : Prop :=
  p.currentPosition.x ≤ p.lastEdgeChunkSendX - cs

/-- The `+Y` threshold of `#sendRequiredEdgeChunks`. -/
def crossedPlusY (cs : Int) (p : PlayerState) : Prop :=
  p.currentPosition.y ≥ p.lastEdgeChunkSendY + cs

/-- The `-Y` threshold of `#sendRequiredEdgeChunks`. -/
def crossedMinusY (cs : Int) (p : PlayerState) : Prop :=
  p.currentPosition.y ≤ p.lastEdgeChunkSendY - cs

instance (cs : Int) (p : PlayerState) : Decidable (crossedPlusX cs p) := by
  unfold crossedPlusX; infer_instance

instance (cs : Int) (p : PlayerState) : Decidable (crossedMinusX cs p) := by
  unfold crossedMinusX; infer_instance

instance (cs : Int) (p : PlayerState) : Decidable (crossedPlusY cs p) := by
  unfold crossedPlusY; infer_instance

instance (cs : Int) (p : PlayerState) : Decidable (crossedMinusY cs p) := by
  unfold crossedMinusY; infer_instance

/-- C8: within a single position change at most one edge-chunk rectangle is
transmitted; when thresholds are crossed on both an X side and a Y side, only
the Y rectangle — the one computed last in source order — is sent (built with
the already-updated X coordinate), while the last-sent coordinate is still
updated for every side whose threshold was crossed. Requires a positive chunk
size (so the `+` and `-` thresholds of one axis are mutually exclusive). -/
theorem sendRequiredEdgeChunks_last_rect_wins (cs vs : Int) (p : PlayerState)
    (hcs : 0 < cs) :
    ((sendRequiredEdgeChunks cs vs p).2.length ≤ 1) ∧
    ((crossedPlusX cs p ∨ crossedMinusX cs p) →
      (sendRequiredEdgeChunks cs vs p).1.lastEdgeChunkSendX = p.currentPosition.x) ∧
    ((crossedPlusY cs p ∨ crossedMinusY cs p) →
      (sendRequiredEdgeChunks cs vs p).1.lastEdgeChunkSendY = p.currentPosition.y) ∧
    ((crossedPlusX cs p ∨ crossedMinusX cs p) → crossedPlusY cs p →
      (sendRequiredEdgeChunks cs vs p).2 =
        [Effect.sendChunk p.id
          (chunkToRect (plusYChunk cs vs p.currentPosition p.currentPosition.x))]) ∧
    ((crossedPlusX cs p ∨ crossedMinusX cs p) → crossedMinusY cs p →
      (sendRequiredEdgeChunks cs vs p).2 =
        [Effect.sendChunk p.id
          (chunkToRect (minusYChunk cs vs p.currentPosition p.currentPosition.x))]) := by
  unfold sendRequiredEdgeChunks crossedPlusX crossedMinusX crossedPlusY crossedMinusY
  refine ⟨?_, ?_, ?_, ?_, ?_⟩ <;>
    simp only [] <;> split_ifs <;> simp <;> omega

/-- A player that crossed both the `+X` and the `+Y` threshold in the same
position change (chunk size 16, last-sent coordinates at the default
`(20, 20)`). -/
def c8Player : PlayerState := { id := 7, currentPosition := ⟨36, 36⟩ }

/-- Witness for C8 at a double-threshold crossing: exactly the `+Y` rectangle
(built with the updated `lastEdgeChunkSendX = 36`) is transmitted, and both
last-sent coordinates are updated. -/
theorem sendRequiredEdgeChunks_last_rect_wins_witness :
    (sendRequiredEdgeChunks 16 30 c8Player).2 =
      [Effect.sendChunk 7 (chunkToRect (plusYChunk 16 30 ⟨36, 36⟩ 36))] ∧
    (sendRequiredEdgeChunks 16 30 c8Player).1.lastEdgeChunkSendX = 36 ∧
    (sendRequiredEdgeChunks 16 30 c8Player).1.lastEdgeChunkSendY = 36 :=
  ⟨(sendRequiredEdgeChunks_last_rect_wins 16 30 c8Player (by decide)).2.2.2.1
      (Or.inl (by decide)) (by decide),
   (sendRequiredEdgeChunks_last_rect_wins 16 30 c8Player (by decide)).2.1
      (Or.inl (by decide)),
   (sendRequiredEdgeChunks_last_rect_wins 16 30 c8Player (by decide)).2.2.1
      (Or.inl (by decide))⟩

/-! ### Claim C3 -/

/-- A player marked dead at wall-clock time `0`, not yet permanently dead. -/
def c3Player : PlayerState := { id := 1, lastDeathState := some ⟨0, DeathType.self⟩ }

/-- C3 counterexample: a player marked dead at `t = 0` is still not permanently
dead when the tick runs at exactly `t + 600`: the source compares with a strict
`dt > 600`, so the transition can only happen strictly after `t + 600 ms`,
never at exactly `t + 600 ms` as the claim states. -/
theorem loopDeathChecks_not_dead_at_600 :
    ((loopDeathChecks c3Player 600).1).permanentlyDead = false := by decide

/-- C3 as amended: the death-timer checks run once per tick; a tick at time
`now` makes a marked-dead player permanently dead if and only if it was
permanently dead already or strictly more than 600 ms have elapsed since
`dieTime` (so the transition happens at the first tick after `t + 600 ms`, and
never at or before `t + 600 ms`); the connection is closed by a tick if and
only if the player was already permanently dead before the tick and strictly
more than 5000 ms have elapsed since the recorded `permanentlyDieTime` (which
is the time of the ticks that made the death permanent, itself strictly after
`t + 600 ms` — so the close happens strictly after `t + 5600 ms`, not at
exactly `t + 5600 ms`). -/
theorem loopDeathChecks_timers (p : PlayerState) (now : Int) (ds : DeathState)
    (h : p.lastDeathState = some ds) :
    (((loopDeathChecks p now).1).permanentlyDead = true ↔
      (p.permanentlyDead = true ∨ now - ds.dieTime > 600)) ∧
    (Effect.connectionClose p.id ∈ (loopDeathChecks p now).2 ↔
      (p.permanentlyDead = true ∧ now - p.permanentlyDieTime > 5000)) := by
  unfold loopDeathChecks permanentlyDie clearAllMyTiles
  rw [h]
  by_cases h600 : now - ds.dieTime > 600
  · by_cases hperm : p.permanentlyDead = true
    · simp [h600, hperm]
    · simp only [Bool.not_eq_true] at hperm
      by_cases hclear : p.allMyTilesCleared = true
      · simp [h600, hperm, hclear, h]
      · simp only [Bool.not_eq_true] at hclear
        simp [h600, hperm, hclear, h]
  · simp [h600]

/-- A player whose death became permanent at time `650`. -/
def c3PermPlayer : PlayerState :=
  { id := 1, lastDeathState := some ⟨0, DeathType.self⟩,
    permanentlyDead := true, permanentlyDieTime := 650 }

/-- Witness for the amended C3: the marked-dead player transitions at the tick
at `601` (strictly after `t + 600`), and the permanently-dead player's
connection is closed at the tick at `5651` (strictly after its
`permanentlyDieTime + 5000`). -/
theorem loopDeathChecks_timers_witness :
    ((loopDeathChecks c3Player 601).1).permanentlyDead = true ∧
    Effect.connectionClose 1 ∈ (loopDeathChecks c3PermPlayer 5651).2 :=
  ⟨(loopDeathChecks_timers c3Player 601 ⟨0, DeathType.self⟩ rfl).1.mpr
      (Or.inr (by decide)),
   (loopDeathChecks_timers c3PermPlayer 5651 ⟨0, DeathType.self⟩ rfl).2.mpr
      ⟨rfl, by decide⟩⟩

/-! ### Claim C6 -/

/-- C6: when a player that is generating a trail moves onto a tile owned by
itself (a tile-type change back to its own id, with its tiles not yet
cleared), the current position is appended as the closing vertex, the arena
fill runs exactly once with the full closed vertex list, the captured area is
recomputed for the player's id, the trail ends up empty, and the now-empty
trail is broadcast. -/
theorem updateCurrentTile_reentry (arena : Vec2 → Int) (p : PlayerState)
    (hgen : isGeneratingTrail p = true)
    (htile : arena p.currentPosition = p.id)
    (hchanged : p.currentTileType ≠ p.id)
    (hclear : p.allMyTilesCleared = false) :
    updateCurrentTile arena p =
      ({ p with trailVertices := [], currentTileType := p.id },
       [Effect.arenaFillPlayerTrail (p.trailVertices ++ [p.currentPosition]) p.id,
        Effect.arenaUpdateCapturedArea p.id,
        Effect.broadcastPlayerTrail p.id]) := by
  unfold updateCurrentTile
  simp [htile, hchanged, hgen, hclear]

/-- The §8 example: trail `[(5,5), (5,10), (10,10)]`, current position
`(10, 5)`, about to re-enter owned territory. -/
def c6Player : PlayerState :=
  { id := 1, currentPosition := ⟨10, 5⟩,
    trailVertices := [⟨5, 5⟩, ⟨5, 10⟩, ⟨10, 10⟩] }

/-- Witness for C6 on the §8 example: exactly one fill call carrying the 4
points (the 3 trail vertices plus the closing point `(10, 5)`), and an empty
trail afterwards. -/
theorem updateCurrentTile_reentry_witness :
    updateCurrentTile (fun _ => 1) c6Player =
      ({ c6Player with trailVertices := [], currentTileType := 1 },
       [Effect.arenaFillPlayerTrail [⟨5, 5⟩, ⟨5, 10⟩, ⟨10, 10⟩, ⟨10, 5⟩] 1,
        Effect.arenaUpdateCapturedArea 1,
        Effect.broadcastPlayerTrail 1]) ∧
    ([⟨5, 5⟩, ⟨5, 10⟩, ⟨10, 10⟩, ⟨10, 5⟩] : List Vec2).length = 4 :=
  ⟨updateCurrentTile_reentry (fun _ => 1) c6Player (by decide) rfl
      (by decide) rfl,
   by decide⟩

/-! ### Claim C4 -/

theorem die_fst_currentPosition (p : PlayerState) (t : DeathType) (b : Bool)
    (now : Int) : (die p t b now).1.currentPosition = p.currentPosition := by
  unfold die
  split <;> rfl

theorem die_fst_id (p : PlayerState) (t : DeathType) (b : Bool)
    (now : Int) : (die p t b now).1.id = p.id := by
  unfold die
  split <;> rfl

theorem boundsDeathStage_fst_currentPosition (cfg : Config) (p0 : PlayerState)
    (now : Int) :
    (boundsDeathStage cfg p0 now).1.currentPosition = p0.currentPosition := by
  unfold boundsDeathStage
  split
  · exact die_fst_currentPosition p0 _ _ _
  · rfl

theorem boundsDeathStage_fst_id (cfg : Config) (p0 : PlayerState) (now : Int) :
    (boundsDeathStage cfg p0 now).1.id = p0.id := by
  unfold boundsDeathStage
  split
  · exact die_fst_id p0 _ _ _
  · rfl

theorem selfHitStage_fst_currentPosition (p1 : PlayerState) (now : Int) :
    (selfHitStage p1 now).1.currentPosition = p1.currentPosition := by
  unfold selfHitStage
  split
  · exact die_fst_currentPosition p1 _ _ _
  · rfl

theorem selfHitStage_fst_id (p1 : PlayerState) (now : Int) :
    (selfHitStage p1 now).1.id = p1.id := by
  unfold selfHitStage
  split
  · exact die_fst_id p1 _ _ _
  · rfl

theorem processOtherHit_hit (pos : Vec2) (mid : Int) (q : PlayerState)
    (now : Int) (halive : q.lastDeathState = none)
    (hb : pointIsInTrailBounds q pos = true)
    (ht : pointIsInTrail q pos true = true) :
    processOtherHit pos mid q now =
      ({ q with lastDeathState := some ⟨now, DeathType.player⟩ },
       [Effect.broadcastPlayerDeath q.id false,
        Effect.broadcastHitLineAnimation q.id mid]) := by
  unfold processOtherHit
  rw [die_alive q _ _ _ halive]
  simp [hb, ht]

theorem selfHitStage_hit (p1 : PlayerState) (now : Int)
    (halive : p1.lastDeathState = none)
    (hb : pointIsInTrailBounds p1 p1.currentPosition = true)
    (ht : pointIsInTrail p1 p1.currentPosition false = true) :
    selfHitStage p1 now =
      ({ p1 with lastDeathState := some ⟨now, DeathType.self⟩ },
       [Effect.broadcastPlayerDeath p1.id true,
        Effect.broadcastHitLineAnimation p1.id p1.id]) := by
  unfold selfHitStage
  rw [die_alive p1 _ _ _ halive]
  simp [hb, ht]

/-- C4: on a discrete move, for every player whose trail bounds contain the
new position and whose trail contains it: another (alive) player whose trail
contains the mover's new position (with the implicit final segment included)
dies with type `"player"` without position reveal, followed by exactly one
hit-line animation between victim and mover — and the struck player with its
new death state is among the resulting players; a non-generating player's
trail degenerates to the single point at that player's current position; and
the (alive, in-bounds) mover whose own trail contains the new position with
the implicit final segment excluded dies with type `"self"`, the position
revealed, with exactly one hit-line animation of the mover against itself. -/
theorem trail_hit_detection (cfg : Config) (p : PlayerState)
    (others : List PlayerState) (now : Int) :
    (∀ q ∈ others, q.lastDeathState = none →
      pointIsInTrailBounds q p.currentPosition = true →
      pointIsInTrail q p.currentPosition true = true →
      processOtherHit p.currentPosition p.id q now =
          ({ q with lastDeathState := some ⟨now, DeathType.player⟩ },
           [Effect.broadcastPlayerDeath q.id false,
            Effect.broadcastHitLineAnimation q.id p.id]) ∧
        { q with lastDeathState := some ⟨now, DeathType.player⟩ } ∈
          (currentPositionChanged cfg p others now).2.1 ∧
        Effect.broadcastHitLineAnimation q.id p.id ∈
          (currentPositionChanged cfg p others now).2.2) ∧
    (∀ q : PlayerState, isGeneratingTrail q = false →
      (pointIsInTrail q p.currentPosition true = true ↔
        p.currentPosition = q.currentPosition)) ∧
    (p.lastDeathState = none →
      outOfBounds cfg p.currentPosition = false →
      pointIsInTrail (updateTrailBoundsOnMove p) p.currentPosition false = true →
      (currentPositionChanged cfg p others now).1.lastDeathState =
          some ⟨now, DeathType.self⟩ ∧
        Effect.broadcastPlayerDeath p.id true ∈
          (currentPositionChanged cfg p others now).2.2 ∧
        Effect.broadcastHitLineAnimation p.id p.id ∈
          (currentPositionChanged cfg p others now).2.2) := by
  have hpos2 : (selfHitStage (boundsDeathStage cfg (updateTrailBoundsOnMove p) now).1
      now).1.currentPosition = p.currentPosition := by
    rw [selfHitStage_fst_currentPosition, boundsDeathStage_fst_currentPosition,
      updateTrailBoundsOnMove_currentPosition]
  have hid2 : (selfHitStage (boundsDeathStage cfg (updateTrailBoundsOnMove p) now).1
      now).1.id = p.id := by
    rw [selfHitStage_fst_id, boundsDeathStage_fst_id, updateTrailBoundsOnMove_id]
  refine ⟨?_, ?_, ?_⟩
  · intro q hq halive hb ht
    have hfq := processOtherHit_hit p.currentPosition p.id q now halive hb ht
    refine ⟨hfq, ?_, ?_⟩
    · unfold currentPositionChanged
      simp only [hpos2, hid2, List.map_map]
      exact List.mem_map.mpr ⟨q, hq, by simp [Function.comp, hfq]⟩
    · unfold currentPositionChanged
      simp only [hpos2, hid2, List.map_map]
      have hmem : Effect.broadcastHitLineAnimation q.id p.id ∈
          (others.map (Prod.snd ∘ fun q => processOtherHit p.currentPosition p.id q now)).flatten :=
        List.mem_flatten.mpr
          ⟨[Effect.broadcastPlayerDeath q.id false,
            Effect.broadcastHitLineAnimation q.id p.id],
           List.mem_map.mpr ⟨q, hq, by simp [Function.comp, hfq]⟩,
           by simp⟩
      simp [List.mem_append, hmem]
  · intro q hgen
    unfold pointIsInTrail
    simp [hgen]
  · intro halive hinb ht
    have h0 : (updateTrailBoundsOnMove p).lastDeathState = none :=
      (updateTrailBoundsOnMove_lastDeathState p).trans halive
    have hin0 : outOfBounds cfg (updateTrailBoundsOnMove p).currentPosition = false := by
      rw [updateTrailBoundsOnMove_currentPosition]
      exact hinb
    have hbst := boundsDeathStage_in cfg (updateTrailBoundsOnMove p) now hin0
    have hshs := selfHitStage_hit (updateTrailBoundsOnMove p) now h0
      (by rw [updateTrailBoundsOnMove_currentPosition]
          exact updateTrailBoundsOnMove_contains_position p)
      (by rw [updateTrailBoundsOnMove_currentPosition]
          exact ht)
    unfold currentPositionChanged
    rw [hbst]
    simp only []
    rw [hshs]
    refine ⟨?_, ?_, ?_⟩
    · rw [sendRequiredEdgeChunks_lastDeathState]
    · simp [List.mem_append, updateTrailBoundsOnMove_id p]
    · simp [List.mem_append, updateTrailBoundsOnMove_id p]

/-- The mover for the other-player hit scenario. -/
def c4Mover : PlayerState := { id := 1, currentPosition := ⟨5, 5⟩ }

/-- A victim generating a vertical trail through `(5, 5)`, with matching trail
bounds. -/
def c4Victim : PlayerState :=
  { id := 2, currentPosition := ⟨8, 8⟩,
    trailVertices := [⟨5, 4⟩, ⟨5, 6⟩],
    trailBounds := ⟨⟨5, 4⟩, ⟨5, 6⟩⟩ }

/-- A mover standing on its own committed trail segment. -/
def c4SelfMover : PlayerState :=
  { id := 4, currentPosition := ⟨5, 5⟩, trailVertices := [⟨3, 5⟩, ⟨7, 5⟩] }

/-- Witness for C4: the victim's hit produces a hit-line animation between
victim and mover, and the self-crossing mover ends up with a `"self"` death
state. -/
theorem trail_hit_detection_witness :
    Effect.broadcastHitLineAnimation 2 1 ∈
      (currentPositionChanged ⟨100, 100, 16, 30⟩ c4Mover [c4Victim] 0).2.2 ∧
    (currentPositionChanged ⟨100, 100, 16, 30⟩ c4SelfMover [] 0).1.lastDeathState =
      some ⟨0, DeathType.self⟩ :=
  ⟨((trail_hit_detection ⟨100, 100, 16, 30⟩ c4Mover [c4Victim] 0).1 c4Victim
      (by simp) rfl (by decide) (by decide)).2.2,
   ((trail_hit_detection ⟨100, 100, 16, 30⟩ c4SelfMover [] 0).2.2 rfl
      (by decide) (by decide)).1⟩

/-! ### Claim C7 -/

/-- Arena used in the C7 run: every tile with `y ≥ 19` is owned by player 1,
everything above is unowned. -/
def c7Arena : Vec2 → Int := fun v => if 19 ≤ v.y then 1 else 0

/-- Configuration for the C7 run: a 100-by-100 arena, chunk size 16, viewport
half-size 30. -/
def c7Config : Config := ⟨100, 100, 16, 30⟩

/-- The C7 run, started from the constructor state of player 1 (spawn at
`(20, 20)`, moving up). Each `loop` call performs exactly one grid step. -/
def c7s0 : PlayerState := { id := 1 }

/-- After one tick: at `(20, 19)`, still on own territory. -/
def c7t1 : PlayerState := (loop c7Config c7Arena 1 c7s0 [] 0 2).1

/-- After two ticks: at `(20, 18)`, the trail starts with vertex `(20, 18)`. -/
def c7t2 : PlayerState := (loop c7Config c7Arena 1 c7t1 [] 1 1).1

/-- After three ticks: at `(20, 17)`, trail bounds `(20, 17)–(20, 18)`. -/
def c7t3 : PlayerState := (loop c7Config c7Arena 1 c7t2 [] 2 1).1

/-- Accepted turn to the left at `(20, 17)`, adding a trail vertex. -/
def c7i1 : PlayerState := (clientPosUpdateRequested c7t3 Direction.left ⟨20, 17⟩).1

/-- After four ticks: at `(19, 17)`. -/
def c7t4 : PlayerState := (loop c7Config c7Arena 1 c7i1 [] 3 1).1

/-- Accepted turn down at `(19, 17)`, adding a trail vertex. -/
def c7i2 : PlayerState := (clientPosUpdateRequested c7t4 Direction.down ⟨19, 17⟩).1

/-- After five ticks: at `(19, 18)`. -/
def c7t5 : PlayerState := (loop c7Config c7Arena 1 c7i2 [] 4 1).1

/-- After six ticks: the step to `(19, 19)` re-enters owned territory and
closes the trail, so the player is no longer generating. -/
def c7t6 : PlayerState := (loop c7Config c7Arena 1 c7t5 [] 5 1).1

/-- C7 counterexample: at an observable point after a tick completes — the
tick in which the trail closed — the player is not generating a trail, yet
`trailBounds` is still the old trail box `(19, 17)–(20, 19)` rather than the
single-point box at the current position `(19, 19)`: the bounds are only reset
on the next position change, so the claim fails at this state (reached from
the constructor state through ordinary `loop` and `clientPosUpdateRequested`
calls). -/
theorem trailBounds_stale_after_trail_close :
    isGeneratingTrail c7t6 = false ∧
    c7t6.trailBounds ≠ ⟨c7t6.currentPosition, c7t6.currentPosition⟩ := by decide

/-- C7 as amended: the bounds are maintained incrementally per position
change, not recomputed. When the player is generating, the new `trailBounds`
is the componentwise min/max of the old box and the new position — it contains
the current position and the whole previous box (so it can strictly exceed
the minimal box enclosing the trail vertices and the position, and it keeps
stale extent after a retroactive position snap); when the player is not
generating, the bounds are reset to the single-point box at the current
position only at the next position change (in particular the old trail box
survives the tick in which the trail closes). -/
theorem trailBounds_update_on_move (p : PlayerState) :
    (isGeneratingTrail p = true →
      (updateTrailBoundsOnMove p).trailBounds =
          ⟨⟨min p.trailBounds.min.x p.currentPosition.x,
            min p.trailBounds.min.y p.currentPosition.y⟩,
           ⟨max p.trailBounds.max.x p.currentPosition.x,
            max p.trailBounds.max.y p.currentPosition.y⟩⟩ ∧
        rectContainsPoint (updateTrailBoundsOnMove p).trailBounds
          p.currentPosition = true ∧
        rectContainsRect (updateTrailBoundsOnMove p).trailBounds
          p.trailBounds = true) ∧
    (isGeneratingTrail p = false →
      (updateTrailBoundsOnMove p).trailBounds =
        ⟨p.currentPosition, p.currentPosition⟩) := by
  constructor <;> intro h <;>
    simp [updateTrailBoundsOnMove, h, rectContainsPoint, rectContainsRect]

/-- A generating player whose position lies outside its current trail box. -/
def c7GenPlayer : PlayerState :=
  { id := 1, currentPosition := ⟨2, 9⟩, trailVertices := [⟨5, 5⟩],
    trailBounds := ⟨⟨5, 5⟩, ⟨5, 5⟩⟩ }

/-- A non-generating player away from its (stale) trail box. -/
def c7IdlePlayer : PlayerState := { id := 2, currentPosition := ⟨7, 3⟩ }

/-- Witness for the amended C7: the generating player's box grows to the
min/max hull `(2, 5)–(5, 9)`; the idle player's box is reset to the point box
at `(7, 3)`. -/
theorem trailBounds_update_on_move_witness :
    (updateTrailBoundsOnMove c7GenPlayer).trailBounds = ⟨⟨2, 5⟩, ⟨5, 9⟩⟩ ∧
    (updateTrailBoundsOnMove c7IdlePlayer).trailBounds = ⟨⟨7, 3⟩, ⟨7, 3⟩⟩ :=
  ⟨by rw [((trailBounds_update_on_move c7GenPlayer).1 (by decide)).1]; decide,
   (trailBounds_update_on_move c7IdlePlayer).2 (by decide)⟩

end Splix
